import Mathlib

/-!
Verification of the untrusted-code validation / sandboxed-execution / retry
pipeline of the insight-pilot repository.

The embedding follows `src/services/code_executor.py` (Static Validator,
Sandbox Environment Builder, Sandboxed Executor) and the orchestration loop
shared by `src/pages/analyze.py` (`_generate_chart`) and
`src/api/routes/analysis.py` (`analyze`).

Python machinery that cannot be reproduced in a pure shallow embedding is
represented explicitly:
* a `CodeArtifact` string is represented by its parse outcome (`Artifact`):
  either a syntax error or the abstract syntax tree `ast.parse` would return;
* `exec` of the artifact is an abstract `Runner` parameter describing what the
  worker thread does (completes with bindings, raises, or never finishes);
* object identity of dataframes is modelled with a `Store` of cells addressed
  by natural-number references, so that `df.copy()` (a fresh allocation) is
  distinguishable from passing the caller's reference through.
-/

namespace InsightPilot

/-! ## Python AST fragment used by the validator

Mirrors the node kinds `validate_code` in `src/services/code_executor.py`
inspects: `Import`, `ImportFrom`, `Call`, `Attribute`, `Assign`, `AugAssign`,
plus the statement/expression shapes needed to place them in a tree
(`Expr` statements, `If`, `Name`, `Constant`, `Subscript`).  Child order of
every constructor follows the field order of the corresponding `ast` node,
which is the order `ast.iter_child_nodes` yields children in.
-/

inductive PyExpr where
  | name (id : String)
  | attribute_expr (value : PyExpr) (attr : String)
  | call (func : PyExpr) (args : List PyExpr)
  | constant
  | subscript (value : PyExpr)

inductive PyStmt where
  | import_stmt (names : List String)
  | import_from (module : Option String) (names : List String)
  | assign (targets : List PyExpr) (value : PyExpr)
  | aug_assign (target : PyExpr) (value : PyExpr)
  | expr_stmt (value : PyExpr)
  | if_stmt (test : PyExpr) (body : List PyStmt) (orelse : List PyStmt)

/-- A node of the walked tree: the module root, a statement, an expression,
or an `ast.alias` (the per-name nodes of an import statement). -/
inductive PyNode where
  | module (body : List PyStmt)
  | stmt (s : PyStmt)
  | expr (e : PyExpr)
  | alias_node (nm : String)

mutual

/-- Size of an expression (number of AST nodes below and including it),
used to justify termination of the breadth-first walk. -/
def expr_size : PyExpr → Nat
  | .name _ => 1
  | .attribute_expr v _ => 1 + expr_size v
  | .call f args => 1 + expr_size f + exprs_size args
  | .constant => 1
  | .subscript v => 1 + expr_size v

/-- Total size of a list of expressions. -/
def exprs_size : List PyExpr → Nat
  | [] => 0
  | e :: es => expr_size e + exprs_size es

end

mutual

/-- Size of a statement, counting the `ast.alias` children of imports. -/
def stmt_size : PyStmt → Nat
  | .import_stmt names => 1 + names.length
  | .import_from _ names => 1 + names.length
  | .assign ts v => 1 + exprs_size ts + expr_size v
  | .aug_assign t v => 1 + expr_size t + expr_size v
  | .expr_stmt v => 1 + expr_size v
  | .if_stmt t b o => 1 + expr_size t + stmts_size b + stmts_size o

/-- Total size of a list of statements. -/
def stmts_size : List PyStmt → Nat
  | [] => 0
  | s :: ss => stmt_size s + stmts_size ss

end

def node_size : PyNode → Nat
  | .module b => 1 + stmts_size b
  | .stmt s => stmt_size s
  | .expr e => expr_size e
  | .alias_node _ => 1

def nodes_size : List PyNode → Nat
  | [] => 0
  | n :: ns => node_size n + nodes_size ns

/-- Children of a node, in `ast.iter_child_nodes` order. -/
def children : PyNode → List PyNode
  | .module b => b.map .stmt
  | .stmt (.import_stmt names) => names.map .alias_node
  | .stmt (.import_from _ names) => names.map .alias_node
  | .stmt (.assign ts v) => ts.map .expr ++ [.expr v]
  | .stmt (.aug_assign t v) => [.expr t, .expr v]
  | .stmt (.expr_stmt v) => [.expr v]
  | .stmt (.if_stmt t b o) => .expr t :: (b.map .stmt ++ o.map .stmt)
  | .expr (.name _) => []
  | .expr (.attribute_expr v _) => [.expr v]
  | .expr (.call f args) => .expr f :: args.map .expr
  | .expr .constant => []
  | .expr (.subscript v) => [.expr v]
  | .alias_node _ => []

theorem nodes_size_append (l₁ l₂ : List PyNode) :
    nodes_size (l₁ ++ l₂) = nodes_size l₁ + nodes_size l₂ := by
  induction l₁ with
  | nil => simp [nodes_size]
  | cons n ns ih => simp [nodes_size, ih]; omega

theorem nodes_size_map_stmt (l : List PyStmt) :
    nodes_size (l.map .stmt) = stmts_size l := by
  induction l with
  | nil => rfl
  | cons s ss ih => simp [nodes_size, stmts_size, node_size, ih]

theorem nodes_size_map_expr (l : List PyExpr) :
    nodes_size (l.map .expr) = exprs_size l := by
  induction l with
  | nil => rfl
  | cons e es ih => simp [nodes_size, exprs_size, node_size, ih]

theorem nodes_size_map_alias (l : List String) :
    nodes_size (l.map .alias_node) = l.length := by
  induction l with
  | nil => rfl
  | cons s ss ih => simp [nodes_size, node_size, ih]; omega

/-- A node accounts for itself plus exactly the sizes of its children, so the
total queue size of the breadth-first walk decreases by exactly one per
dequeued node. -/
theorem node_size_eq (n : PyNode) : node_size n = 1 + nodes_size (children n) := by
  cases n with
  | module b => simp [children, node_size, nodes_size_map_stmt]
  | stmt s =>
    cases s <;>
      simp [children, node_size, stmt_size, nodes_size, nodes_size_append,
        nodes_size_map_expr, nodes_size_map_stmt, nodes_size_map_alias] <;>
      omega
  | expr e =>
    cases e <;>
      simp [children, node_size, expr_size, nodes_size, nodes_size_append,
        nodes_size_map_expr] <;>
      omega
  | alias_node nm => simp [children, node_size, nodes_size]

/-- One FIFO step of `ast.walk` per unit of fuel: pop a node from the front,
append its children at the back.  `nodes_size` of the queue is the exact
number of steps the traversal takes, so running with that much fuel is the
full traversal; the fuel only serves to make the recursion structural. -/
def bfs_fuel : Nat → List PyNode → List PyNode
  | _, [] => []
  | 0, _ :: _ => []
  | fuel + 1, n :: rest => n :: bfs_fuel fuel (rest ++ children n)

/-- Breadth-first traversal of the tree, exactly as `ast.walk` does it: a
FIFO queue, popping from the front and appending each popped node's children
at the back. -/
def bfs (queue : List PyNode) : List PyNode :=
  bfs_fuel (nodes_size queue) queue

theorem bfs_nil : bfs [] = [] := rfl

/-- The defining queue equation of the walk, fuel eliminated. -/
theorem bfs_cons (n : PyNode) (rest : List PyNode) :
    bfs (n :: rest) = n :: bfs (rest ++ children n) := by
  have h : nodes_size (n :: rest) = nodes_size (rest ++ children n) + 1 := by
    rw [nodes_size, node_size_eq n, nodes_size_append]
    omega
  rw [bfs, bfs, h]
  rfl

/-- `ast.walk(tree)` for a parsed module: the module node first, then its
descendants in breadth-first order. -/
def ast_walk (body : List PyStmt) : List PyNode :=
  bfs [.module body]

/-! ## Whitelists and blocklists (`src/services/code_executor.py`, lines 29-44) -/

def ALLOWED_MODULES : List String :=
  ["pandas", "numpy", "plotly", "plotly.express", "plotly.graph_objects",
   "plotly.subplots", "datetime", "math", "statistics", "json", "re"]

def BLOCKED_BUILTINS : List String :=
  ["exec", "eval", "compile", "__import__", "open", "input",
   "breakpoint", "exit", "quit", "globals", "locals",
   "getattr", "setattr", "delattr", "vars", "dir",
   "memoryview", "bytearray"]

def BLOCKED_ATTR_PATTERNS : List String :=
  ["__import__", "__subclasses__", "__bases__", "__class__",
   "__globals__", "__code__", "__func__"]

/-- The tuple of dangerous roots checked against the first path segment of a
resolved call name (`validate_code`, line 75). -/
def DANGEROUS_CALL_BASES : List String :=
  ["os", "sys", "subprocess", "shutil", "socket",
   "requests", "urllib", "http", "ftplib", "pathlib"]

/-- The tuple of dangerous bare call names (`validate_code`, line 78). -/
def BLOCKED_CALL_NAMES : List String :=
  ["open", "exec", "eval", "compile", "__import__",
   "input", "breakpoint", "exit", "quit"]

/-! ## Static validator (`validate_code`, lines 51-117) -/

/-- Characters of a string up to (excluding) the first dot. -/
def take_until_dot : List Char → List Char
  | [] => []
  | c :: cs => if c = '.' then [] else c :: take_until_dot cs

/-- Python's `name.split(".")[0]`: the top-level package segment. -/
def top_level (s : String) : String :=
  String.mk (take_until_dot s.data)

/-- The dotted chain of `_get_call_name`: attribute names are collected from
the outermost attribute inwards, then the root identifier is appended when the
chain bottoms out in a `Name`; the Python code reverses the collected parts,
so the result here is root-first.  When the chain bottoms out in anything
else, the root is silently dropped, exactly as in the source. -/
def chain_parts : PyExpr → List String
  | .name id => [id]
  | .attribute_expr v a => chain_parts v ++ [a]
  | _ => []

/-- `"."`-join of the parts. -/
def join_dotted : List String → String
  | [] => ""
  | [p] => p
  | p :: ps => p ++ "." ++ join_dotted ps

/-- `_get_call_name` (lines 104-117) applied to the `func` of a `Call` node:
a bare `Name` yields its identifier, an `Attribute` chain yields the joined
dotted path, anything else yields `none`. -/
def get_call_name (func : PyExpr) : Option String :=
  match func with
  | .name id => some id
  | .attribute_expr v a => some (join_dotted (chain_parts (.attribute_expr v a)))
  | _ => none

/-- The per-node check performed by the single `for node in ast.walk(tree)`
loop of `validate_code` (lines 59-85): imports, calls and attribute accesses
each produce the corresponding rejection message; every other node kind
passes. -/
def check_node : PyNode → Option String
  | .stmt (.import_stmt names) =>
    names.findSome? fun nm =>
      if top_level nm ∈ ALLOWED_MODULES then none
      else some ("Import of \x27" ++ nm ++ "\x27 is not allowed.")
  | .stmt (.import_from mod _) =>
    match mod with
    | some m =>
      if top_level m ∈ ALLOWED_MODULES then none
      else some ("Import from \x27" ++ m ++ "\x27 is not allowed.")
    | none => none
  | .expr (.call f _) =>
    match get_call_name f with
    | some fn =>
      if top_level fn ∈ DANGEROUS_CALL_BASES then
        some ("Call to \x27" ++ fn ++ "\x27 is not allowed.")
      else if fn ∈ BLOCKED_CALL_NAMES then
        some ("Call to \x27" ++ fn ++ "\x27 is not allowed.")
      else none
    | none => none
  | .expr (.attribute_expr _ a) =>
    if a ∈ BLOCKED_ATTR_PATTERNS then
      some ("Access to \x27" ++ a ++ "\x27 is not allowed.")
    else none
  | _ => none

/-- Whether one walked node is an assignment (or augmented assignment) whose
target is the bare name `fig` (the second `ast.walk` loop, lines 88-96). -/
def node_assigns_fig : PyNode → Bool
  | .stmt (.assign targets _) =>
    targets.any fun t =>
      match t with
      | .name id => id = "fig"
      | _ => false
  | .stmt (.aug_assign t _) =>
    match t with
    | .name id => id = "fig"
    | _ => false
  | _ => false

/-- `assigns_fig` flag computed by the second walk of `validate_code`. -/
def assigns_fig (body : List PyStmt) : Bool :=
  (ast_walk body).any node_assigns_fig

/-- A `CodeArtifact` as seen through `ast.parse`: either a syntax error with
its message, or the parsed module body. -/
inductive Artifact where
  | parse_error (msg : String)
  | tree (body : List PyStmt)

/-- `validate_code` (lines 51-101): returns `(is_safe, error_message)`. -/
def validate_code : Artifact → Bool × String
  | .parse_error msg => (false, "Syntax error: " ++ msg)
  | .tree body =>
    match (ast_walk body).findSome? check_node with
    | some err => (false, err)
    | none =>
      if assigns_fig body then (true, "")
      else (false, "Code must assign a plotly figure to a variable named \x27fig\x27.")

/-! ## Sandbox environment and executor (`src/services/code_executor.py`, lines 120-231)

Dataframe object identity is modelled with a `Store` of cells addressed by
natural-number references; `df.copy()` allocates a fresh cell holding the
same value.  The behaviour of `exec(code, safe_globals, local_ns)` on the
worker thread is an abstract `Runner` parameter: it may complete (reporting
the elapsed milliseconds and the values, if any, that ended up bound to
`fig` in `local_ns` and in `safe_globals`), raise an exception, or fail to
finish within the timeout.  The runner may also update the store, but only
through the references its globals give it access to.
-/

/-- The contents of one dataframe object (a plain grid of integers suffices
for the claims under study). -/
abbrev DataFrame := List (List Int)

/-- A heap of dataframe objects; references are list indices. -/
structure Store where
  cells : List DataFrame
deriving DecidableEq

def Store.lookup (s : Store) (r : Nat) : Option DataFrame :=
  s.cells.get? r

/-- Overwrite the dataframe held in cell `r` (models in-place mutation of
that object). -/
def Store.write (s : Store) (r : Nat) (v : DataFrame) : Store :=
  ⟨s.cells.set r v⟩

/-- `df.copy()`: allocate a fresh cell holding the same value and return its
reference. -/
def Store.copy_df (s : Store) (r : Nat) : Store × Nat :=
  (⟨s.cells ++ [(s.cells.get? r).getD []]⟩, s.cells.length)

/-- `CODE_EXEC_TIMEOUT_SECONDS` from `src/config/settings.py` (line 46),
default value of the `CODE_EXEC_TIMEOUT` environment variable. -/
def CODE_EXEC_TIMEOUT_SECONDS : Nat := 30

/-- `_safe_import` (lines 124-129): raise `ImportError` unless the top-level
package segment or the full dotted name is allow-listed; otherwise delegate
to the real `__import__` with the same name (`Except.ok name`). -/
def safe_import (name : String) : Except String String :=
  if top_level name ∉ ALLOWED_MODULES ∧ name ∉ ALLOWED_MODULES then
    Except.error ("Import of \x27" ++ name ++ "\x27 is not allowed.")
  else
    Except.ok name

/-- The restricted globals dict built by `create_safe_globals` (lines
132-165), reduced to the parts the claims depend on: the reference to the
private dataframe copy bound to `df`, the replacement `__import__` hook
installed into the filtered builtins, and the names of the pre-bound library
handles.  The filtered builtins themselves (everything except
`BLOCKED_BUILTINS`) carry no further structure needed here. -/
structure SafeGlobals where
  dfRef : Nat
  import_hook : String → Except String String
  handle_names : List String

/-- `create_safe_globals(df)`: copy the dataframe into a fresh cell, install
`_safe_import` as `__import__`, and bind the permitted library handles. -/
def create_safe_globals (s : Store) (df : Nat) : SafeGlobals × Store :=
  let sc := s.copy_df df
  (⟨sc.2, safe_import,
    ["df", "pd", "np", "px", "go", "make_subplots",
     "datetime", "math", "statistics", "json", "re"]⟩, sc.1)

/-- A Python runtime value that could end up bound to `fig`. -/
inductive PyVal where
  | none_val
  | int_val (n : Int)
  | bool_val (b : Bool)
  | str_val (s : String)
  | figure
deriving DecidableEq

/-- Python truthiness, as used by the `or` on line 207. -/
def PyVal.truthy : PyVal → Bool
  | .none_val => false
  | .int_val n => n ≠ 0
  | .bool_val b => b
  | .str_val s => s ≠ ""
  | .figure => true

/-- `type(v).__name__`. -/
def PyVal.type_name : PyVal → String
  | .none_val => "NoneType"
  | .int_val _ => "int"
  | .bool_val _ => "bool"
  | .str_val _ => "str"
  | .figure => "Figure"

/-- `x.get("fig")`: Python `dict.get` returns `None` for a missing key. -/
def dict_get_fig (x : Option PyVal) : PyVal :=
  x.getD .none_val

/-- Python `a or b`: `a` if truthy, else `b`. -/
def py_or (a b : PyVal) : PyVal :=
  if a.truthy then a else b

/-- What the worker thread's `exec` does with a given artifact: completes
(with elapsed wall-clock milliseconds and the values bound to `fig` in
`local_ns` and `safe_globals` afterwards), raises an exception, or does not
finish within the timeout. -/
inductive RunBehavior where
  | completes (elapsed_ms : Nat) (figLocal : Option PyVal) (figGlobal : Option PyVal)
  | raises (exn_type : String) (exn_msg : String)
  | hangs

/-- Abstract semantics of `exec` for the artifact under the given globals:
the observable behaviour plus the store the executed (or abandoned) code
leaves behind. -/
def Runner : Type :=
  Artifact → SafeGlobals → Store → RunBehavior × Store

/-- A runner that only ever writes through the dataframe reference its
globals hand it: the memory-safety guarantee `exec` gives code that receives
`safe_globals` as its whole world. -/
def runner_env_local (run : Runner) : Prop :=
  ∀ code g s r, r ≠ g.dfRef → ((run code g s).2).lookup r = s.lookup r

/-- The result dict of `execute_code` (lines 176-181). -/
structure ExecResult where
  success : Bool
  figure : Option PyVal
  error : Option String
  execution_time_ms : Nat
deriving DecidableEq

/-- How `execute_code` turns the worker thread's behaviour into the result
dict (`_run`, lines 200-221, and the timeout handling, lines 227-229): on
completion, `fig = local_ns.get("fig") or safe_globals.get("fig")` is
inspected — `None` means no output variable, a non-`Figure` value is a type
mismatch naming the actual type, a `Figure` is success; an exception is
reported as `"type: message"` with elapsed time 0; a thread still alive
after `join(timeout)` yields the timeout message and an elapsed time of
exactly `timeout_seconds * 1000`. -/
def exec_outcome (t : Nat) : RunBehavior → ExecResult
  | .completes elapsed_ms figLocal figGlobal =>
    let fig := py_or (dict_get_fig figLocal) (dict_get_fig figGlobal)
    if fig = .none_val then
      ⟨false, none, some "Code did not produce a \x27fig\x27 variable.", elapsed_ms⟩
    else if fig ≠ .figure then
      ⟨false, none,
        some ("\x27fig\x27 is not a plotly Figure (got " ++ fig.type_name ++ ")."),
        elapsed_ms⟩
    else
      ⟨true, some fig, none, elapsed_ms⟩
  | .raises exn_type exn_msg =>
    ⟨false, none, some (exn_type ++ ": " ++ exn_msg), 0⟩
  | .hangs =>
    ⟨false, none,
      some ("Code execution timed out after " ++ toString t ++ " seconds."),
      t * 1000⟩

/-- `execute_code(code, df, timeout_seconds)` (lines 172-231): resolve the
timeout default, validate first (lines 186-194, returning the validation
failure without ever starting the worker), otherwise build the restricted
globals (with the private dataframe copy), run the worker thread, and
assemble the result dict from its behaviour.  Returns the result together
with the final store. -/
def execute_code (run : Runner) (code : Artifact) (s : Store) (df : Nat)
    (timeout_seconds : Option Nat) : ExecResult × Store :=
  let t := timeout_seconds.getD CODE_EXEC_TIMEOUT_SECONDS
  let v := validate_code code
  if v.1 = false then
    (⟨false, none, some ("Code validation failed: " ++ v.2), 0⟩, s)
  else
    let gs := create_safe_globals s df
    let r := run code gs.1 gs.2
    (exec_outcome t r.1, r.2)

/-! ## Orchestration loop

The generation / execution / bounded-refinement loop appears twice in the
repository with identical control flow: `_generate_chart` in
`src/pages/analyze.py` (lines 241-317) and `analyze` in
`src/api/routes/analysis.py` (lines 31-91).  The Generation Client
(`llm_service.generate_chart_code` / `refine_chart_code`) is abstracted as a
`GenClient` whose `refine` is a function of the arguments that vary across
attempts (the current code and the current error message); the prompt,
dataset profile, dataframe and project instructions are fixed for the whole
session and folded into the closure.  Likewise the executor call
`code_executor.execute_code(code, df)` is abstracted as a function from the
code string to its result dict. -/

/-- The `{"code": ..., "tokens_used": ...}` dict a generation or refinement
call returns. -/
structure GenResult where
  code : String
  tokens_used : Nat
deriving DecidableEq

/-- The Generation Client: the initial `generate_chart_code` call and the
`refine_chart_code` call, the latter as a function of `original_code` and
`error_message`. -/
structure GenClient where
  generate : GenResult
  refine : String → Option String → GenResult

/-- The state of `_generate_chart` / `analyze` after the retry loop exits:
the latest code, the latest execution result, the accumulated token count
and the final value of the `retries` counter. -/
structure SessionResult where
  code : String
  exec_result : ExecResult
  total_tokens : Nat
  retries : Nat
deriving DecidableEq

/-- The `while not exec_result["success"] and retries < 2` loop
(`analyze.py` lines 267-280, `analysis.py` lines 50-62): each iteration
increments `retries`, requests a refinement with the current code and error,
accumulates its token count and re-executes the refined code. -/
def auto_retry (refine : String → Option String → GenResult)
    (execFn : String → ExecResult)
    (code : String) (er : ExecResult) (total_tokens retries : Nat) : SessionResult :=
  if h : er.success = false ∧ retries < 2 then
    let rr := refine code er.error
    auto_retry refine execFn rr.code (execFn rr.code) (total_tokens + rr.tokens_used)
      (retries + 1)
  else
    ⟨code, er, total_tokens, retries⟩
termination_by 2 - retries
decreasing_by omega

/-- One full session: the initial generation call, the initial execution,
then the bounded retry loop (`analyze.py` lines 252-280). -/
def run_analysis (c : GenClient) (execFn : String → ExecResult) : SessionResult :=
  auto_retry c.refine execFn c.generate.code (execFn c.generate.code)
    c.generate.tokens_used 0

/-- Rendering of an optional error the way a Python f-string renders it
(`None` for an absent value). -/
def err_text : Option String → String
  | some s => s
  | none => "None"

/-- The terminal failure message shown to the caller
(`analyze.py` line 315): it interpolates only the final attempt count and
the latest `exec_result["error"]`. -/
def failure_message (s : SessionResult) : String :=
  "Code generation failed after " ++ toString (s.retries + 1) ++ " attempts: "
    ++ err_text s.exec_result.error

/-- Specification-side description of the refinement calls the loop makes
from a given state: the list of `GenResult`s returned by the Generation
Client, in order.  Used to state that the accumulated token count is the sum
over all calls actually made. -/
def refine_trace (refine : String → Option String → GenResult)
    (execFn : String → ExecResult)
    (code : String) (er : ExecResult) (retries : Nat) : List GenResult :=
  if h : er.success = false ∧ retries < 2 then
    let rr := refine code er.error
    rr :: refine_trace refine execFn rr.code (execFn rr.code) (retries + 1)
  else
    []
termination_by 2 - retries
decreasing_by omega

/-- The refinement calls made during a whole session. -/
def session_refine_trace (c : GenClient) (execFn : String → ExecResult) :
    List GenResult :=
  refine_trace c.refine execFn c.generate.code (execFn c.generate.code) 0

/-- Specification-side description of the three attempts of a session whose
executions all fail: the second generation (first refinement) call. -/
def attempt2_gen (c : GenClient) (execFn : String → ExecResult) : GenResult :=
  c.refine c.generate.code (execFn c.generate.code).error

/-- The third generation (second refinement) call of such a session. -/
def attempt3_gen (c : GenClient) (execFn : String → ExecResult) : GenResult :=
  c.refine (attempt2_gen c execFn).code (execFn (attempt2_gen c execFn).code).error

/-! ## Claim-side predicates about a parsed artifact -/

/-- Every import statement anywhere in the tree names only modules whose
top-level package segment is permitted. -/
def imports_allowed (body : List PyStmt) : Bool :=
  (ast_walk body).all fun n =>
    match n with
    | .stmt (.import_stmt names) =>
      names.all fun nm => decide (top_level nm ∈ ALLOWED_MODULES)
    | .stmt (.import_from mod _) =>
      match mod with
      | some m => decide (top_level m ∈ ALLOWED_MODULES)
      | none => true
    | _ => true

/-- Every call expression anywhere in the tree resolves to a permitted name:
neither rooted in a dangerous module nor itself a blocked bare name. -/
def calls_allowed (body : List PyStmt) : Bool :=
  (ast_walk body).all fun n =>
    match n with
    | .expr (.call f _) =>
      match get_call_name f with
      | some fn =>
        decide (top_level fn ∉ DANGEROUS_CALL_BASES ∧ fn ∉ BLOCKED_CALL_NAMES)
      | none => true
    | _ => true

/-- No attribute access anywhere in the tree names a blocked reflective
attribute. -/
def attrs_allowed (body : List PyStmt) : Bool :=
  (ast_walk body).all fun n =>
    match n with
    | .expr (.attribute_expr _ a) => decide (a ∉ BLOCKED_ATTR_PATTERNS)
    | _ => true

/-- The import check of `validate_code` restricted to one statement: the
rejection message of the first disallowed module named by this statement, if
it is an import statement naming one. -/
def stmt_import_violation : PyStmt → Option String
  | .import_stmt names =>
    names.findSome? fun nm =>
      if top_level nm ∈ ALLOWED_MODULES then none
      else some ("Import of \x27" ++ nm ++ "\x27 is not allowed.")
  | .import_from (some m) _ =>
    if top_level m ∈ ALLOWED_MODULES then none
    else some ("Import from \x27" ++ m ++ "\x27 is not allowed.")
  | _ => none

/-- The first disallowed import among the module's top-level statements, with
its rejection message. -/
def first_bad_top_import (body : List PyStmt) : Option String :=
  body.findSome? stmt_import_violation

/-! ## Helper lemmas about the walk -/

theorem findSome?_eq_none_of {α β : Type} (f : α → Option β) (l : List α)
    (h : ∀ x ∈ l, f x = none) : l.findSome? f = none := by
  induction l with
  | nil => rfl
  | cons a as ih =>
    rw [List.findSome?_cons]
    rw [h a (List.mem_cons_self a as)]
    exact ih fun x hx => h x (List.mem_cons_of_mem a hx)

theorem findSome?_append_some {α β : Type} (f : α → Option β) (l₁ l₂ : List α)
    (e : β) (h : l₁.findSome? f = some e) :
    (l₁ ++ l₂).findSome? f = some e := by
  induction l₁ with
  | nil => simp [List.findSome?_nil] at h
  | cons a as ih =>
    rw [List.cons_append, List.findSome?_cons]
    rw [List.findSome?_cons] at h
    cases hfa : f a with
    | some b => rw [hfa] at h; exact h
    | none => rw [hfa] at h; exact ih h

theorem findSome?_map_eq {α β γ : Type} (g : α → β) (f : β → Option γ)
    (l : List α) : (l.map g).findSome? f = l.findSome? fun x => f (g x) := by
  induction l with
  | nil => rfl
  | cons a as ih =>
    rw [List.map_cons, List.findSome?_cons, List.findSome?_cons]
    cases f (g a) <;> simp [ih]

/-- The queue elements of the walk come out first, in order, followed by the
walk of all their children (the level-by-level structure of breadth-first
order). -/
theorem bfs_append_queue (q₁ : List PyNode) :
    ∀ q₂, bfs (q₁ ++ q₂) = q₁ ++ bfs (q₂ ++ q₁.flatMap children) := by
  induction q₁ with
  | nil => intro q₂; simp
  | cons a q₁' ih =>
    intro q₂
    rw [List.cons_append, bfs_cons, List.append_assoc, ih (q₂ ++ children a)]
    simp [List.flatMap_cons]

/-- Every walk is its own queue followed by the walk of the children. -/
theorem bfs_self (q : List PyNode) : bfs q = q ++ bfs (q.flatMap children) := by
  have h := bfs_append_queue q []
  simpa using h

/-- On statement nodes the walk's check is exactly the import check: calls
and attribute accesses are expressions and can never occur as a statement
node themselves. -/
theorem check_node_stmt (s : PyStmt) :
    check_node (.stmt s) = stmt_import_violation s := by
  cases s with
  | import_from mod names => cases mod <;> rfl
  | _ => rfl

/-- Under the four per-kind conditions, no walked node triggers a rejection. -/
theorem check_node_none_of_allowed (body : List PyStmt)
    (h1 : imports_allowed body = true) (h2 : calls_allowed body = true)
    (h3 : attrs_allowed body = true) :
    (ast_walk body).findSome? check_node = none := by
  apply findSome?_eq_none_of
  intro n hn
  have e1 := List.all_eq_true.mp h1 n hn
  have e2 := List.all_eq_true.mp h2 n hn
  have e3 := List.all_eq_true.mp h3 n hn
  cases n with
  | module b => rfl
  | alias_node nm => rfl
  | stmt s =>
    cases s with
    | import_stmt names =>
      simp only [imports_allowed] at e1
      rw [check_node]
      apply findSome?_eq_none_of
      intro nm hnm
      have := List.all_eq_true.mp e1 nm hnm
      simp only [decide_eq_true_eq] at this
      simp [this]
    | import_from mod names =>
      cases mod with
      | none => rfl
      | some m =>
        simp only [decide_eq_true_eq] at e1
        simp [check_node, e1]
    | assign ts v => rfl
    | aug_assign t v => rfl
    | expr_stmt v => rfl
    | if_stmt t b o => rfl
  | expr e =>
    cases e with
    | name id => rfl
    | attribute_expr v a =>
      simp only [decide_eq_true_eq] at e3
      simp [check_node, e3]
    | call f args =>
      have e2' : (match get_call_name f with
          | some fn =>
            decide (top_level fn ∉ DANGEROUS_CALL_BASES ∧ fn ∉ BLOCKED_CALL_NAMES)
          | none => true) = true := e2
      cases hg : get_call_name f with
      | none => simp [check_node, hg]
      | some fn =>
        rw [hg] at e2'
        simp only [decide_eq_true_eq] at e2'
        simp [check_node, hg, e2'.1, e2'.2]
    | constant => rfl
    | subscript v => rfl

/-! ## Claims C5 and C6: the static validator -/

/-- Artifact `fig = df.__class__`: it parses, contains no import statement
and no call expression, and assigns to `fig`, yet `validate_code` rejects it
for the blocked attribute access. -/
def cex_attr_body : List PyStmt :=
  [.assign [.name "fig"] (.attribute_expr (.name "df") "__class__")]

/-- Claim C5, counterexample: an artifact satisfying every hypothesis of the
claim as stated (all imports permitted — vacuously, all calls permitted —
vacuously, output variable assigned) is nevertheless rejected, because
`validate_code` additionally checks attribute accesses against
`BLOCKED_ATTR_PATTERNS`. -/
theorem validate_allowlist_claim_cex :
    imports_allowed cex_attr_body = true ∧
    calls_allowed cex_attr_body = true ∧
    assigns_fig cex_attr_body = true ∧
    validate_code (.tree cex_attr_body) =
      (false, "Access to \x27__class__\x27 is not allowed.") := by
  decide

/-- Claim C5 (amended): for every CodeArtifact that parses, whose imports
are all drawn from the permitted module set, whose call expressions all
resolve to permitted names, whose attribute accesses never name a blocked
reflective attribute, and which assigns to the output variable,
`validate_code` returns accepted = true. -/
theorem validate_allowlist_sound (body : List PyStmt)
    (h1 : imports_allowed body = true) (h2 : calls_allowed body = true)
    (h3 : attrs_allowed body = true) (h4 : assigns_fig body = true) :
    validate_code (.tree body) = (true, "") := by
  have hnone := check_node_none_of_allowed body h1 h2 h3
  simp [validate_code, hnone, h4]

/-- Artifact `import plotly.express as px` / `fig = px.bar(df, a, b)`. -/
def w5_body : List PyStmt :=
  [.import_stmt ["plotly.express"],
   .assign [.name "fig"]
     (.call (.attribute_expr (.name "px") "bar") [.name "df", .name "a", .name "b"])]

/-- Witness for `validate_allowlist_sound` on a concrete compliant artifact. -/
theorem validate_allowlist_sound_witness :
    imports_allowed w5_body = true ∧ calls_allowed w5_body = true ∧
    attrs_allowed w5_body = true ∧ assigns_fig w5_body = true ∧
    validate_code (.tree w5_body) = (true, "") :=
  ⟨by decide, by decide, by decide, by decide,
    validate_allowlist_sound w5_body (by decide) (by decide) (by decide) (by decide)⟩

/-- Artifact `os.getcwd()`, then `if True:` whose body is `import shutil`,
then `fig = 1`: it contains both a disallowed call and a disallowed import,
and the import sits one level deeper in the tree than the call expression. -/
def cex_order_body : List PyStmt :=
  [.expr_stmt (.call (.attribute_expr (.name "os") "getcwd") []),
   .if_stmt .constant [.import_stmt ["shutil"]] [],
   .assign [.name "fig"] .constant]

/-- Claim C6, counterexample: for an artifact containing both a disallowed
call and a disallowed import, the rejection reason does NOT always cite
the import — here the disallowed call `os.getcwd` is encountered first in
the breadth-first walk (the import is nested inside an `if` body) and is
the one cited. -/
theorem validate_order_claim_cex :
    validate_code (.tree cex_order_body) =
      (false, "Call to \x27os.getcwd\x27 is not allowed.") ∧
    (validate_code (.tree cex_order_body)).2 ≠
      "Import of \x27shutil\x27 is not allowed." := by
  decide

/-- Claim C6 (amended): parse errors are checked first and the
output-binding requirement last, but the import / call / attribute checks
run in a single breadth-first walk in which the first violating node wins.
Consequently a disallowed import at the top level of the module is always
cited in preference to any disallowed call or attribute (those live in
expressions, which sit strictly deeper in the walk than the top-level
statements), while a nested disallowed import can lose to an earlier call,
as the counterexample shows. -/
theorem validate_top_import_wins (body : List PyStmt) (e : String)
    (h : first_bad_top_import body = some e) :
    validate_code (.tree body) = (false, e) := by
  have hwalk : ast_walk body = .module body :: bfs (body.map .stmt) := by
    rw [ast_walk, bfs_cons]
    simp [children]
  have hw : (ast_walk body).findSome? check_node = some e := by
    rw [hwalk, List.findSome?_cons]
    have hmod : check_node (.module body) = none := rfl
    rw [hmod]
    rw [bfs_self]
    apply findSome?_append_some
    rw [findSome?_map_eq]
    have hfun : (fun s => check_node (.stmt s)) = stmt_import_violation :=
      funext check_node_stmt
    rw [hfun]
    exact h
  simp [validate_code, hw]

/-- Artifact `import shutil` followed by `os.getcwd()`: both violations
present, the top-level import is cited. -/
def w6_body : List PyStmt :=
  [.import_stmt ["shutil"],
   .expr_stmt (.call (.attribute_expr (.name "os") "getcwd") [])]

/-- Witness for `validate_top_import_wins` on a concrete artifact. -/
theorem validate_top_import_wins_witness :
    validate_code (.tree w6_body) =
      (false, "Import of \x27shutil\x27 is not allowed.") :=
  validate_top_import_wins w6_body "Import of \x27shutil\x27 is not allowed." (by decide)

/-! ## Claims C2, C3, C4, C7, C9, C10: the sandbox and executor -/

/-- Artifact `import os` / `fig = 1`: rejected by the validator. -/
def os_artifact : Artifact :=
  .tree [.import_stmt ["os"], .assign [.name "fig"] .constant]

/-- Artifact `fig = 0` (also standing in for any accepted artifact): parses,
touches nothing forbidden, assigns `fig`. -/
def ok_artifact : Artifact :=
  .tree [.assign [.name "fig"] .constant]

/-- A two-by-two demo dataframe in cell 0. -/
def demo_store : Store := ⟨[[[1, 2], [3, 4]]]⟩

/-- A runner whose execution would complete immediately, leaving a Figure
bound to `fig`. -/
def success_runner : Runner :=
  fun _ _ s => (.completes 5 (some .figure) none, s)

/-- A runner whose execution would raise `ValueError: boom`. -/
def raising_runner : Runner :=
  fun _ _ s => (.raises "ValueError" "boom", s)

/-- A runner whose execution never finishes within the timeout. -/
def hanging_runner : Runner :=
  fun _ _ s => (.hangs, s)

/-- A runner that overwrites, in place, the dataframe object its globals
bind to `df` (like executed code doing `df["value"] = df["value"] * 100`). -/
def mutating_runner : Runner :=
  fun _ g s => (.completes 3 (some .figure) none, s.write g.dfRef [[99]])

/-- A runner completing with `fig` bound to the integer `0` in `local_ns`. -/
def fig_zero_runner : Runner :=
  fun _ _ s => (.completes 7 (some (.int_val 0)) none, s)

/-- A runner completing with `fig` bound to the integer `5` in `local_ns`. -/
def fig_five_runner : Runner :=
  fun _ _ s => (.completes 7 (some (.int_val 5)) none, s)

theorem store_write_lookup_ne (s : Store) (i j : Nat) (v : DataFrame)
    (h : j ≠ i) : (s.write i v).lookup j = s.lookup j := by
  simp only [Store.write, Store.lookup]
  exact List.get?_set_ne v s.cells (fun he => h he.symm)

theorem mutating_runner_local : runner_env_local mutating_runner := by
  intro code g s r hr
  exact store_write_lookup_ne s g.dfRef r [[99]] hr

/-- Claim C2: a CodeArtifact rejected by the validator is never run, on any
attempt of any session: for rejected code the result of `execute_code` does
not depend on what executing the code would have done (the runner is never
consulted — the exec step is never reached) and the caller's store comes
back untouched. -/
theorem rejected_never_run (code : Artifact) (s : Store) (df : Nat)
    (t : Option Nat) (h : (validate_code code).1 = false) :
    (∀ run run' : Runner,
      execute_code run code s df t = execute_code run' code s df t) ∧
    (∀ run : Runner, (execute_code run code s df t).2 = s) := by
  constructor
  · intro run run'
    simp [execute_code, h]
  · intro run
    simp [execute_code, h]

/-- Witness for `rejected_never_run`: a successfully-completing runner and a
raising runner are indistinguishable on a rejected artifact. -/
theorem rejected_never_run_witness :
    (execute_code success_runner os_artifact demo_store 0 none =
      execute_code raising_runner os_artifact demo_store 0 none) ∧
    (execute_code success_runner os_artifact demo_store 0 none).2 = demo_store := by
  have h := rejected_never_run os_artifact demo_store 0 none (by decide)
  exact ⟨h.1 success_runner raising_runner, h.2 success_runner⟩

/-- Claim C3: sandbox non-mutation.  For every dataset reference and every
artifact, as long as the runner can only write through the dataframe
reference its globals hand it (which is all `exec` hands the code), the
caller's original dataset cell is unchanged after `execute_code` returns:
the globals are built around a private copy in a fresh cell, never the
caller's cell. -/
theorem sandbox_non_mutation (run : Runner) (hloc : runner_env_local run)
    (code : Artifact) (s : Store) (df : Nat) (t : Option Nat)
    (hdf : df < s.cells.length) :
    ((execute_code run code s df t).2).lookup df = s.lookup df := by
  by_cases hv : (validate_code code).1 = false
  · simp [execute_code, hv]
  · have hv' : (validate_code code).1 = true := by
      revert hv
      cases (validate_code code).1 <;> simp
    have hne : df ≠ (create_safe_globals s df).1.dfRef := by
      have hdfr : (create_safe_globals s df).1.dfRef = s.cells.length := rfl
      rw [hdfr]
      exact Nat.ne_of_lt hdf
    have h1 := hloc code (create_safe_globals s df).1 (create_safe_globals s df).2 df hne
    have h2 : ((create_safe_globals s df).2).lookup df = s.lookup df := by
      simp only [create_safe_globals, Store.copy_df, Store.lookup]
      exact List.get?_append hdf
    simp [execute_code, hv', h1, h2]

/-- Witness for `sandbox_non_mutation`: a runner that overwrites its `df`
object leaves the caller's cell holding the original grid. -/
theorem sandbox_non_mutation_witness :
    ((execute_code mutating_runner ok_artifact demo_store 0 none).2).lookup 0 =
      demo_store.lookup 0 ∧
    ((execute_code mutating_runner ok_artifact demo_store 0 none).2).lookup 0 =
      some [[1, 2], [3, 4]] :=
  ⟨sandbox_non_mutation mutating_runner mutating_runner_local ok_artifact
      demo_store 0 none (by decide),
    by decide⟩

/-- Claim C4: for every execution that does not complete within the
configured timeout, `execute_code` returns a failure carrying exactly the
timeout-specific message template (distinct from the `"type: message"`
runtime-error shape and from validation failures) and an elapsed time of
exactly `timeout_seconds * 1000` milliseconds. -/
theorem timeout_outcome (run : Runner) (code : Artifact) (s : Store) (df : Nat)
    (t : Nat) (hsafe : (validate_code code).1 = true)
    (hhang : (run code (create_safe_globals s df).1 (create_safe_globals s df).2).1
      = .hangs) :
    (execute_code run code s df (some t)).1 =
      ⟨false, none,
        some ("Code execution timed out after " ++ toString t ++ " seconds."),
        t * 1000⟩ := by
  simp [execute_code, hsafe, hhang, exec_outcome]

/-- Witness for `timeout_outcome` with a 5-second budget. -/
theorem timeout_outcome_witness :
    (execute_code hanging_runner ok_artifact demo_store 0 (some 5)).1 =
      ⟨false, none, some "Code execution timed out after 5 seconds.", 5000⟩ := by
  have h := timeout_outcome hanging_runner ok_artifact demo_store 0 5 (by decide) rfl
  exact h.trans (by decide)

/-- Claim C7, counterexample: the Executor does perform validation of its
own.  On a rejected artifact, `execute_code` returns the validation failure
even though actually running the code would have succeeded — while the same
runner on an accepted artifact does succeed.  If `execute_code` ran the code
without re-validating, both results would be successes. -/
theorem executor_revalidates_cex :
    (execute_code success_runner os_artifact demo_store 0 none).1 =
      ⟨false, none,
        some "Code validation failed: Import of \x27os\x27 is not allowed.", 0⟩ ∧
    (execute_code success_runner ok_artifact demo_store 0 none).1.success = true := by
  decide

/-- Claim C7 (amended): the Executor re-validates: `execute_code` calls
`validate_code` on the code string first and, whenever the verdict is
rejecting, returns a validation-failure outcome (error
`"Code validation failed: <reason>"`, elapsed 0 ms) without executing; only
accepted code reaches the exec step. -/
theorem executor_validates_first (run : Runner) (code : Artifact) (s : Store)
    (df : Nat) (t : Option Nat) (h : (validate_code code).1 = false) :
    (execute_code run code s df t).1 =
      ⟨false, none,
        some ("Code validation failed: " ++ (validate_code code).2), 0⟩ := by
  simp [execute_code, h]

/-- Witness for `executor_validates_first` on the `import os` artifact. -/
theorem executor_validates_first_witness :
    (execute_code raising_runner os_artifact demo_store 0 none).1 =
      ⟨false, none,
        some "Code validation failed: Import of \x27os\x27 is not allowed.", 0⟩ := by
  have h := executor_validates_first raising_runner os_artifact demo_store 0 none
    (by decide)
  exact h.trans (by decide)

/-- Claim C9: `fig` bound to a plain integer.  For the nonzero integer `5`
the result is the type-mismatch message naming `int`, as the claim states —
but for the integer `0` the claim fails: the falsy `0` makes
`local_ns.get("fig") or safe_globals.get("fig")` fall through to `None`, so
`execute_code` reports `"Code did not produce a 'fig' variable."` instead of
a type mismatch. -/
theorem fig_zero_misreported :
    (execute_code fig_zero_runner ok_artifact demo_store 0 none).1 =
      ⟨false, none, some "Code did not produce a \x27fig\x27 variable.", 7⟩ ∧
    (execute_code fig_five_runner ok_artifact demo_store 0 none).1 =
      ⟨false, none,
        some "\x27fig\x27 is not a plotly Figure (got int).", 7⟩ := by
  decide

/-- Claim C10: the sandbox installs `_safe_import` as `__import__`, and
`_safe_import` raises `ImportError` if and only if neither the top-level
package segment nor the full dotted name is in `ALLOWED_MODULES`; allowed
names delegate to the real import of the same name. -/
theorem safe_import_gate (s : Store) (df : Nat) (name : String) :
    (create_safe_globals s df).1.import_hook = safe_import ∧
    (safe_import name =
        Except.error ("Import of \x27" ++ name ++ "\x27 is not allowed.") ↔
      (top_level name ∉ ALLOWED_MODULES ∧ name ∉ ALLOWED_MODULES)) ∧
    ((top_level name ∈ ALLOWED_MODULES ∨ name ∈ ALLOWED_MODULES) →
      safe_import name = Except.ok name) := by
  refine ⟨rfl, ⟨?_, ?_⟩, ?_⟩
  · intro h
    by_contra hc
    simp [safe_import, hc] at h
  · intro hc
    simp [safe_import, hc]
  · intro hor
    have hc : ¬(top_level name ∉ ALLOWED_MODULES ∧ name ∉ ALLOWED_MODULES) := by
      tauto
    simp [safe_import, hc]

/-- Witness for `safe_import_gate`: `socket` is refused, `plotly.express`
delegates. -/
theorem safe_import_gate_witness :
    safe_import "socket" =
      Except.error "Import of \x27socket\x27 is not allowed." ∧
    safe_import "plotly.express" = Except.ok "plotly.express" := by
  have h1 := (safe_import_gate demo_store 0 "socket").2.1.mpr (by decide)
  have h2 := (safe_import_gate demo_store 0 "plotly.express").2.2 (by decide)
  exact ⟨h1.trans rfl, h2⟩

/-! ## Claims C1 and C8: the orchestration loop -/

theorem auto_retry_step (refine : String → Option String → GenResult)
    (execFn : String → ExecResult) (code : String) (er : ExecResult)
    (tok retries : Nat) (hf : er.success = false) (hr : retries < 2) :
    auto_retry refine execFn code er tok retries =
      auto_retry refine execFn (refine code er.error).code
        (execFn (refine code er.error).code)
        (tok + (refine code er.error).tokens_used) (retries + 1) := by
  rw [auto_retry.eq_def, dif_pos ⟨hf, hr⟩]

theorem auto_retry_stop (refine : String → Option String → GenResult)
    (execFn : String → ExecResult) (code : String) (er : ExecResult)
    (tok retries : Nat) (h : ¬(er.success = false ∧ retries < 2)) :
    auto_retry refine execFn code er tok retries = ⟨code, er, tok, retries⟩ := by
  rw [auto_retry.eq_def, dif_neg h]

theorem refine_trace_step (refine : String → Option String → GenResult)
    (execFn : String → ExecResult) (code : String) (er : ExecResult)
    (retries : Nat) (hf : er.success = false) (hr : retries < 2) :
    refine_trace refine execFn code er retries =
      refine code er.error ::
        refine_trace refine execFn (refine code er.error).code
          (execFn (refine code er.error).code) (retries + 1) := by
  rw [refine_trace.eq_def, dif_pos ⟨hf, hr⟩]

theorem refine_trace_stop (refine : String → Option String → GenResult)
    (execFn : String → ExecResult) (code : String) (er : ExecResult)
    (retries : Nat) (h : ¬(er.success = false ∧ retries < 2)) :
    refine_trace refine execFn code er retries = [] := by
  rw [refine_trace.eq_def, dif_neg h]

/-- The loop's running token total ends up as the starting total plus the
tokens of every refinement call the loop goes on to make. -/
theorem auto_retry_tokens_aux :
    ∀ (d : Nat) (refine : String → Option String → GenResult)
      (execFn : String → ExecResult) (code : String) (er : ExecResult)
      (tok retries : Nat), 2 - retries ≤ d →
      (auto_retry refine execFn code er tok retries).total_tokens =
        tok + ((refine_trace refine execFn code er retries).map
          GenResult.tokens_used).sum := by
  intro d
  induction d with
  | zero =>
    intro refine execFn code er tok retries hle
    have h : ¬(er.success = false ∧ retries < 2) := by
      rintro ⟨-, h2⟩
      omega
    rw [auto_retry_stop refine execFn code er tok retries h,
      refine_trace_stop refine execFn code er retries h]
    simp
  | succ d ih =>
    intro refine execFn code er tok retries hle
    by_cases hc : er.success = false ∧ retries < 2
    · rw [auto_retry_step refine execFn code er tok retries hc.1 hc.2,
        refine_trace_step refine execFn code er retries hc.1 hc.2]
      rw [ih refine execFn (refine code er.error).code
        (execFn (refine code er.error).code)
        (tok + (refine code er.error).tokens_used) (retries + 1) (by omega)]
      simp [List.map_cons, List.sum_cons]
      omega
    · rw [auto_retry_stop refine execFn code er tok retries hc,
        refine_trace_stop refine execFn code er retries hc]
      simp

/-- Claim C1: with a Generation Client whose code always fails execution,
the session makes exactly `max_retries + 1 = 3` attempts (the initial
generation plus two refinements), ends with the retry counter at its ceiling
of 2, and the error reported to the caller interpolates only the third
attempt's failure detail — no aggregate of earlier attempts' errors. -/
theorem run_analysis_retry_ceiling (c : GenClient) (execFn : String → ExecResult)
    (hfail : ∀ code, (execFn code).success = false) :
    run_analysis c execFn =
      ⟨(attempt3_gen c execFn).code, execFn (attempt3_gen c execFn).code,
        c.generate.tokens_used + (attempt2_gen c execFn).tokens_used
          + (attempt3_gen c execFn).tokens_used, 2⟩ ∧
    failure_message (run_analysis c execFn) =
      "Code generation failed after 3 attempts: "
        ++ err_text (execFn (attempt3_gen c execFn).code).error := by
  have hsess : run_analysis c execFn =
      ⟨(attempt3_gen c execFn).code, execFn (attempt3_gen c execFn).code,
        c.generate.tokens_used + (attempt2_gen c execFn).tokens_used
          + (attempt3_gen c execFn).tokens_used, 2⟩ := by
    rw [run_analysis]
    rw [auto_retry_step c.refine execFn c.generate.code (execFn c.generate.code)
      c.generate.tokens_used 0 (hfail c.generate.code) (by omega)]
    rw [auto_retry_step c.refine execFn _ _ _ 1 (hfail _) (by omega)]
    rw [auto_retry_stop c.refine execFn _ _ _ 2 (by rintro ⟨-, h2⟩; omega)]
    rfl
  refine ⟨hsess, ?_⟩
  rw [hsess]
  simp only [failure_message]
  congr 1

/-- A stub client whose generated and refined code always fails execution
with error `boom`. -/
def wc_fail_client : GenClient :=
  ⟨⟨"g0", 5⟩, fun code _ => ⟨code ++ "r", 3⟩⟩

/-- The executor stub that fails every code string. -/
def wc_fail_exec : String → ExecResult :=
  fun _ => ⟨false, none, some "boom", 0⟩

/-- Witness for `run_analysis_retry_ceiling`: 3 attempts, retries counter 2,
tokens 5 + 3 + 3, message built from the last error only. -/
theorem run_analysis_retry_ceiling_witness :
    run_analysis wc_fail_client wc_fail_exec =
      ⟨"g0rr", ⟨false, none, some "boom", 0⟩, 11, 2⟩ ∧
    failure_message (run_analysis wc_fail_client wc_fail_exec) =
      "Code generation failed after 3 attempts: boom" := by
  have h := run_analysis_retry_ceiling wc_fail_client wc_fail_exec (fun _ => rfl)
  exact ⟨h.1.trans (by decide), h.2.trans (by decide)⟩

/-- Claim C8: the token total a session hands to cost accounting is the
initial generation call's `tokens_used` plus the sum of the `tokens_used`
reported by every refinement call actually made; in particular a session
whose first execution succeeds reports exactly the single generation call's
count and a retry counter of 0. -/
theorem run_analysis_token_total (c : GenClient) (execFn : String → ExecResult) :
    (run_analysis c execFn).total_tokens =
      c.generate.tokens_used +
        ((session_refine_trace c execFn).map GenResult.tokens_used).sum ∧
    ((execFn c.generate.code).success = true →
      (run_analysis c execFn).total_tokens = c.generate.tokens_used ∧
      (run_analysis c execFn).retries = 0) := by
  constructor
  · rw [run_analysis, session_refine_trace]
    exact auto_retry_tokens_aux 2 c.refine execFn c.generate.code
      (execFn c.generate.code) c.generate.tokens_used 0 (by omega)
  · intro hs
    have h : ¬((execFn c.generate.code).success = false ∧ (0 : Nat) < 2) := by
      rintro ⟨h1, -⟩
      rw [hs] at h1
      cases h1
    rw [run_analysis, auto_retry_stop c.refine execFn c.generate.code
      (execFn c.generate.code) c.generate.tokens_used 0 h]
    exact ⟨rfl, rfl⟩

/-- A stub client whose first generation succeeds at once. -/
def wc_ok_client : GenClient :=
  ⟨⟨"good", 7⟩, fun code _ => ⟨code, 1⟩⟩

/-- The executor stub that succeeds on every code string. -/
def wc_ok_exec : String → ExecResult :=
  fun _ => ⟨true, some .figure, none, 2⟩

/-- Witness for `run_analysis_token_total`: a first-attempt success reports
exactly the single generation call's 7 tokens and no retries. -/
theorem run_analysis_token_total_witness :
    (run_analysis wc_ok_client wc_ok_exec).total_tokens = 7 ∧
    (run_analysis wc_ok_client wc_ok_exec).retries = 0 := by
  have h := (run_analysis_token_total wc_ok_client wc_ok_exec).2 rfl
  exact ⟨h.1.trans rfl, h.2⟩

end InsightPilot
